import Mathlib

/-!
Shallow embedding of the journey-orchestration core of the GOV-HACK
community-agent repository (files `app/orchestrator.py`, `app/models.py`,
`app/utils/audit.py`, `app/utils/storage.py`, and the submit endpoint of
`app/main.py`), together with theorems settling the frozen claims about it.

Modelling conventions:
* Python/JSON runtime values that the dotted-path resolver traverses are
  embedded as the inductive `Value`; `Value.vnone` is Python `None`.
  Pydantic models and dicts are both embedded as `Value.vobj` association
  lists (the source accesses both uniformly, attribute-style first and
  mapping-style second; declared pydantic fields are always present, with
  `None` for unset optionals, which `vobj` entries mirror exactly).
* Timestamps are `Int` seconds since the epoch; `datetime.utcnow()` becomes
  an explicit `now : Int` argument, `isoformat` becomes `toString` (an
  injective, order-preserving encoding, as ISO-8601 is for fixed-format
  UTC timestamps), and `timedelta(days = d)` becomes `d * 86400` seconds.
* `hashlib.sha256(...).hexdigest()` is an external pure function; it is
  embedded as an explicit `digest : String → String` parameter, so every
  theorem holds for the real digest in particular.
* File-system effects (artifact writes, the audit log, the journey store of
  `main.py`) are explicit state threaded through the functions.
-/

namespace CommunityAgent

/-- Embedded Python/JSON values: `vnone` is Python `None`, `vobj` embeds both
pydantic model instances (all declared fields present) and dicts. -/
inductive Value where
  | vnone : Value
  | vstr : String → Value
  | vbool : Bool → Value
  | vint : Int → Value
  | vlist : List Value → Value
  | vobj : List (String × Value) → Value

/-- First-match key lookup in an embedded object, mirroring Python
attribute/mapping access on one key. -/
def lookupKey : List (String × Value) → String → Option Value
  | [], _ => none
  | (k, v) :: rest, key => if k = key then some v else lookupKey rest key

/-- Whether an embedded value is Python `None` (the `value is not None`
test of `prefill_form`). -/
def Value.isNone : Value → Bool
  | Value.vnone => true
  | _ => false

/-- The segment-by-segment traversal loop of
`JourneyOrchestrator._get_value_from_path` (orchestrator.py lines 399-411):
a missing key (`hasattr` false and `KeyError`) or a non-traversable leaf
yields Python `None` for the whole call. -/
def getFromPathAux : Value → List String → Value
  | obj, [] => obj
  | Value.vobj fields, key :: rest =>
      match lookupKey fields key with
      | some v => getFromPathAux v rest
      | none => Value.vnone
  | _, _ :: _ => Value.vnone

/-- Source `JourneyOrchestrator._get_value_from_path(obj, path)`: split the dotted
path on `.` and traverse; every miss is reported as `None`, never as an
exception. -/
def get_value_from_path (obj : Value) (path : String) : Value :=
  getFromPathAux obj (path.splitOn ".")

/-- Modelled from the spec wording of §4.4: `resolve(record, dotted_path) →
value | absent`, where `absent` is `Option.none` — returned whenever any
segment is missing or the traversal reaches a non-traversable leaf,
otherwise the value at the path is returned. Used only to compare the
source resolver against the specification. -/
def resolve_spec : Value → List String → Option Value
  | v, [] => some v
  | Value.vobj fields, key :: rest =>
      match lookupKey fields key with
      | some v => resolve_spec v rest
      | none => none
  | _, _ :: _ => none

/-- Python dict assignment `m[k] = v`: update the value in place if the key
exists, otherwise append the new binding. -/
def dictInsert {α : Type} (m : List (String × α)) (k : String) (v : α) :
    List (String × α) :=
  if m.any (fun p => p.1 = k) then
    m.map (fun p => if p.1 = k then (k, v) else p)
  else m ++ [(k, v)]

/-- models.py `Address`. -/
structure Address where
  line1 : String
  suburb : String
  state : String
  postcode : String

/-- models.py `Person`; `dob : date` is embedded as its ISO string. -/
structure Person where
  full_name : String
  dob : String
  email : Option String
  phone : Option String
  address : Option Address

/-- models.py `Baby`. -/
structure Baby where
  name : Option String
  sex : Option String
  dob : String
  place_of_birth : Option String
  parents : List Person

/-- models.py `Employment`. -/
structure Employment where
  last_employer : Option String
  last_work_date : Option String
  reason_for_unemployment : Option String
  preferred_provider : Option String
  skills_assessment : Option Bool
  training_interests : Option (List String)
  work_preferences : Option (List String)
  resume_upload : Option String

/-- models.py `Banking`. -/
structure Banking where
  bsb : Option String
  account_number : Option String
  account_name : Option String

/-- models.py `Disaster`. -/
structure Disaster where
  type : Option String
  date : Option String
  location : Option String
  property_damage : Option String

/-- models.py `Housing`. -/
structure Housing where
  status : Option String
  damage_description : Option String
  household_size : Option Int
  special_needs : Option (List String)
  temporary_accommodation_needed : Option Bool

/-- models.py `Intake`: the tagged-union style intake record with all
optional groups. -/
structure Intake where
  parent1 : Option Person
  parent2 : Option Person
  baby : Option Baby
  applicant : Option Person
  employment : Option Employment
  banking : Option Banking
  disaster : Option Disaster
  housing : Option Housing
  preferred_language : String
  accessibility : List String
  address : Option Address

/-- models.py `Artifact` (the reference record, not the stored envelope). -/
structure Artifact where
  type : String
  path : String
  created_at : Int
  step_id : Option String

/-- models.py `JourneyStep`. -/
structure JourneyStep where
  id : String
  title : String
  status : String
  artifacts : List Artifact

/-- models.py `Journey`. -/
structure Journey where
  id : String
  life_event : String
  jurisdiction : String
  steps : List JourneyStep
  created_at : Int

/-- models.py `FormField`. -/
structure FormField where
  id : String
  label : String
  required : Bool
  source : String

/-- models.py `FormSchema`. -/
structure FormSchema where
  id : String
  title : String
  description : String
  fields : List FormField
  review_text : String
  receipt_expected : Bool

/-- Embed an optional string the way pydantic `.dict()` and attribute access
expose it: `None` for an unset optional. -/
def optStr : Option String → Value
  | none => Value.vnone
  | some s => Value.vstr s

/-- Embed an optional boolean field. -/
def optBool : Option Bool → Value
  | none => Value.vnone
  | some b => Value.vbool b

/-- Embed an optional string-list field. -/
def optStrList : Option (List String) → Value
  | none => Value.vnone
  | some l => Value.vlist (l.map Value.vstr)

/-- Embed an `Address` as the object the resolver traverses. -/
def Address.toValue (a : Address) : Value :=
  Value.vobj [("line1", Value.vstr a.line1), ("suburb", Value.vstr a.suburb),
    ("state", Value.vstr a.state), ("postcode", Value.vstr a.postcode)]

/-- Embed an optional `Address`. -/
def optAddress : Option Address → Value
  | none => Value.vnone
  | some a => a.toValue

/-- Embed a `Person` as the object the resolver traverses. -/
def Person.toValue (p : Person) : Value :=
  Value.vobj [("full_name", Value.vstr p.full_name), ("dob", Value.vstr p.dob),
    ("email", optStr p.email), ("phone", optStr p.phone),
    ("address", optAddress p.address)]

/-- Embed an optional `Person`. -/
def optPerson : Option Person → Value
  | none => Value.vnone
  | some p => p.toValue

/-- Embed a `Baby` as the object the resolver traverses. -/
def Baby.toValue (b : Baby) : Value :=
  Value.vobj [("name", optStr b.name), ("sex", optStr b.sex),
    ("dob", Value.vstr b.dob), ("place_of_birth", optStr b.place_of_birth),
    ("parents", Value.vlist (b.parents.map Person.toValue))]

/-- Embed an `Employment` record. -/
def Employment.toValue (e : Employment) : Value :=
  Value.vobj [("last_employer", optStr e.last_employer),
    ("last_work_date", optStr e.last_work_date),
    ("reason_for_unemployment", optStr e.reason_for_unemployment),
    ("preferred_provider", optStr e.preferred_provider),
    ("skills_assessment", optBool e.skills_assessment),
    ("training_interests", optStrList e.training_interests),
    ("work_preferences", optStrList e.work_preferences),
    ("resume_upload", optStr e.resume_upload)]

/-- Embed a `Banking` record. -/
def Banking.toValue (b : Banking) : Value :=
  Value.vobj [("bsb", optStr b.bsb), ("account_number", optStr b.account_number),
    ("account_name", optStr b.account_name)]

/-- Embed a `Disaster` record. -/
def Disaster.toValue (d : Disaster) : Value :=
  Value.vobj [("type", optStr d.type), ("date", optStr d.date),
    ("location", optStr d.location),
    ("property_damage", optStr d.property_damage)]

/-- Embed a `Housing` record. -/
def Housing.toValue (h : Housing) : Value :=
  Value.vobj [("status", optStr h.status),
    ("damage_description", optStr h.damage_description),
    ("household_size", match h.household_size with
      | none => Value.vnone
      | some n => Value.vint n),
    ("special_needs", optStrList h.special_needs),
    ("temporary_accommodation_needed",
      optBool h.temporary_accommodation_needed)]

/-- Embed an `Intake` as the object `prefill_form` resolves paths against:
every declared pydantic field is present, unset optionals are `None`. -/
def Intake.toValue (i : Intake) : Value :=
  Value.vobj [("parent1", optPerson i.parent1), ("parent2", optPerson i.parent2),
    ("baby", match i.baby with
      | none => Value.vnone
      | some b => b.toValue),
    ("applicant", optPerson i.applicant),
    ("employment", match i.employment with
      | none => Value.vnone
      | some e => e.toValue),
    ("banking", match i.banking with
      | none => Value.vnone
      | some b => b.toValue),
    ("disaster", match i.disaster with
      | none => Value.vnone
      | some d => d.toValue),
    ("housing", match i.housing with
      | none => Value.vnone
      | some h => h.toValue),
    ("preferred_language", Value.vstr i.preferred_language),
    ("accessibility", Value.vlist (i.accessibility.map Value.vstr)),
    ("address", optAddress i.address)]

/-- The `Intake` model of models.py declares no `carer_info` field, so
`hasattr(intake, "carer_info")` is False for every intake and the
carer-info group can never be populated. -/
def carer_info_populated (_ : Intake) : Bool := false

/-- Source `JourneyOrchestrator._determine_life_event` (orchestrator.py lines
63-75): fixed-priority classification over which optional groups are
populated (a populated pydantic sub-model is always truthy). -/
def determine_life_event (intake : Intake) : String :=
  if intake.baby.isSome && intake.parent1.isSome then "baby_just_born"
  else if intake.employment.isSome && intake.applicant.isSome then "job_loss"
  else if intake.disaster.isSome && intake.applicant.isSome then
    "disaster_recovery"
  else if intake.applicant.isSome && carer_info_populated intake then
    "carer_support"
  else "baby_just_born"

/-- Modelled from the spec wording of §4.5 step 1: baby+parent1 ⇒
baby_just_born; otherwise employment+applicant ⇒ job_loss; otherwise
disaster+applicant ⇒ disaster_recovery; otherwise applicant+carer info ⇒
carer_support; else default baby_just_born — first matching rule wins.
Used only to compare the source classifier against the specification. -/
def classify_spec (intake : Intake) : String :=
  if intake.baby.isSome && intake.parent1.isSome then "baby_just_born"
  else if intake.employment.isSome && intake.applicant.isSome then "job_loss"
  else if intake.disaster.isSome && intake.applicant.isSome then
    "disaster_recovery"
  else if intake.applicant.isSome && carer_info_populated intake then
    "carer_support"
  else "baby_just_born"

/-- Source `JourneyOrchestrator._generate_journey_id` (orchestrator.py lines
247-274). `digest` stands for `hashlib.sha256(...).hexdigest()`, and `now`
for `datetime.utcnow().isoformat()`, which is consumed only by the fallback
branch. -/
def generate_journey_id (digest : String → String) (now : String)
    (intake : Intake) : String :=
  let life_event := determine_life_event intake
  let fallback := now ++ life_event
  let hash_input :=
    if life_event = "baby_just_born" then
      match intake.baby, intake.parent1 with
      | some baby, some p1 =>
          let base := baby.dob ++ p1.full_name
          match intake.parent2 with
          | some p2 => base ++ p2.full_name
          | none => base
      | _, _ => fallback
    else if life_event = "job_loss" then
      match intake.applicant with
      | some a =>
          let base := a.dob ++ a.full_name
          match intake.employment with
          | some e =>
              match e.last_work_date with
              | some d => base ++ d
              | none => base
          | none => base
      | none => fallback
    else if life_event = "disaster_recovery" then
      match intake.applicant with
      | some a =>
          let base := a.dob ++ a.full_name
          match intake.disaster with
          | some d =>
              match d.date with
              | some dd => base ++ dd
              | none => base
          | none => base
      | none => fallback
    else if life_event = "carer_support" then
      match intake.applicant with
      | some a => a.dob ++ a.full_name
      | none => fallback
    else fallback
  "journey_" ++ (digest hash_input).take 12

/-- Source `JourneyOrchestrator._generate_reference` (orchestrator.py lines
276-280): two-letter upper-cased step prefix plus 8 digest characters over
step id + journey id + timestamp. -/
def generate_reference (digest : String → String) (step_id journey_id : String)
    (timestamp : String) : String :=
  (step_id.toUpper.take 2) ++ "-" ++
    (digest (step_id ++ journey_id ++ timestamp)).take 8

/-- An audit-log event as written by `log_event` (audit.py lines 8-57):
`timestamp` is the event time (its ISO string is `toString timestamp`),
`metadata` values are embedded as strings (matching the
`json.dumps(..., default=str)` stringification). -/
structure AuditEvent where
  timestamp : Int
  actor : String
  action : String
  why : String
  consent_id : Option String
  metadata : List (String × String)
  hash : String

/-- JSON encoding of a string literal (escaping is not modelled; the
encoding is applied uniformly, so hash determinism is unaffected). -/
def jsonStr (s : String) : String := "\"" ++ s ++ "\""

/-- JSON encoding of `None`-or-string, as `json.dumps` renders it. -/
def jsonOptStr : Option String → String
  | none => "null"
  | some s => jsonStr s

/-- Sorted-key JSON encoding of the metadata dict (`json.dumps` with
`sort_keys=True` sorts nested objects too). -/
def jsonMetadata (md : List (String × String)) : String :=
  let sorted := List.insertionSort (fun p q : String × String => p.1 ≤ q.1) md
  "\x7b" ++ String.intercalate ", "
    (sorted.map (fun p => jsonStr p.1 ++ ": " ++ jsonStr p.2)) ++ "\x7d"

/-- The canonicalized event of audit.py line 43: `json.dumps(event,
sort_keys=True, default=str)` over the six fields `action, actor,
consent_id, metadata, timestamp, why` (their sorted-key order), computed
before — and therefore without — the `hash` field. -/
def canonical_event (timestamp : Int) (actor action why : String)
    (consent_id : Option String) (metadata : List (String × String)) :
    String :=
  "\x7b" ++ jsonStr "action" ++ ": " ++ jsonStr action ++ ", " ++
    jsonStr "actor" ++ ": " ++ jsonStr actor ++ ", " ++
    jsonStr "consent_id" ++ ": " ++ jsonOptStr consent_id ++ ", " ++
    jsonStr "metadata" ++ ": " ++ jsonMetadata metadata ++ ", " ++
    jsonStr "timestamp" ++ ": " ++ jsonStr (toString timestamp) ++ ", " ++
    jsonStr "why" ++ ": " ++ jsonStr why ++ "\x7d"

/-- Source `log_event` (audit.py lines 8-57): hash the canonicalized event, add
the hash to the event, append it to the log, return the hash. -/
def log_event (digest : String → String) (log : List AuditEvent)
    (timestamp : Int) (actor action why : String) (consent_id : Option String)
    (metadata : List (String × String)) : List AuditEvent × String :=
  let event_hash := digest (canonical_event timestamp actor action why
    consent_id metadata)
  (log ++ [{ timestamp := timestamp, actor := actor, action := action,
             why := why, consent_id := consent_id, metadata := metadata,
             hash := event_hash }], event_hash)

/-- A consent-ledger record, as appended by `log_consent` (audit.py lines
96-119): `granted_at` is the grant time in seconds. -/
structure ConsentRecord where
  consent_id : String
  journey_id : String
  consent_scope : List String
  user_identifier : String
  signature : Option String
  granted_at : Int
  ttl_days : Int

/-- Source `log_consent` (audit.py lines 60-121): derive the consent id from
journey id + timestamp, write one audit event, append the full record
(with `ttl_days = 30`) to the consent ledger. Returns the consent id, the
new ledger, and the new audit log. -/
def log_consent (digest : String → String) (ledger : List ConsentRecord)
    (log : List AuditEvent) (journey_id : String) (consent_scope : List String)
    (user_identifier : String) (signature : Option String) (now : Int) :
    String × List ConsentRecord × List AuditEvent :=
  let consent_id := (digest (journey_id ++ toString now)).take 16
  let logged := log_event digest log now "user" "consent_granted"
    "User granted consent for specified scopes" (some consent_id)
    [("journey_id", journey_id),
     ("consent_scope", String.intercalate "," consent_scope),
     ("user_identifier", user_identifier),
     ("has_signature", toString signature.isSome)]
  let record : ConsentRecord :=
    { consent_id := consent_id, journey_id := journey_id,
      consent_scope := consent_scope, user_identifier := user_identifier,
      signature := signature, granted_at := now, ttl_days := 30 }
  (consent_id, ledger ++ [record], logged.1)

/-- The expiry test of audit.py lines 150-154: the record is still valid
when `now < granted_at + timedelta(days = ttl_days)`. -/
def consent_not_expired (now : Int) (c : ConsentRecord) : Bool :=
  decide (now < c.granted_at + c.ttl_days * 86400)

/-- Source `verify_consent` (audit.py lines 124-160): scan the ledger and return
True at the first record whose id matches, whose scope list contains the
required scope, and which has not expired; otherwise False. -/
def verify_consent (ledger : List ConsentRecord) (now : Int)
    (consent_id required_scope : String) : Bool :=
  ledger.any (fun c =>
    c.consent_id == consent_id && c.consent_scope.contains required_scope &&
      consent_not_expired now c)

/-- One line of the append-only audit log file: either a parsable event or
a corrupt line that `json.loads` rejects. -/
inductive LogLine where
  | corrupt : String → LogLine
  | ok : AuditEvent → LogLine

/-- The filter block of `get_audit_trail` (audit.py lines 193-208): keep an
event when every provided filter matches (journey id is read from
`metadata`, date bounds are inclusive). -/
def audit_matches (journey_id action : Option String)
    (start_date end_date : Option Int) (e : AuditEvent) : Bool :=
  (match journey_id with
   | none => true
   | some j => decide ((e.metadata.lookup "journey_id") = some j)) &&
  (match action with
   | none => true
   | some a => e.action == a) &&
  (match start_date with
   | none => true
   | some s => decide (s ≤ e.timestamp)) &&
  (match end_date with
   | none => true
   | some t => decide (e.timestamp ≤ t))

/-- Newest-first ordering on audit events (descending timestamp; the source
sorts by the ISO timestamp string, whose lexicographic order is the
chronological order). -/
def newestFirst (a b : AuditEvent) : Prop := b.timestamp ≤ a.timestamp

instance : DecidableRel newestFirst :=
  fun a b => inferInstanceAs (Decidable (b.timestamp ≤ a.timestamp))

instance : IsTotal AuditEvent newestFirst :=
  ⟨fun a b => le_total b.timestamp a.timestamp⟩

instance : IsTrans AuditEvent newestFirst :=
  ⟨fun _ _ _ h1 h2 => le_trans h2 h1⟩

/-- The parse-and-filter pass of `get_audit_trail`: corrupt lines are
skipped (`json.JSONDecodeError` → `continue`), surviving events are the
ones matching every filter, in file order. -/
def matching_events (lines : List LogLine) (journey_id action : Option String)
    (start_date end_date : Option Int) : List AuditEvent :=
  lines.filterMap (fun l =>
    match l with
    | LogLine.corrupt _ => none
    | LogLine.ok e =>
        if audit_matches journey_id action start_date end_date e then some e
        else none)

/-- Source `get_audit_trail` (audit.py lines 163-218): linear scan + filter, then
a stable sort newest first. -/
def get_audit_trail (lines : List LogLine) (journey_id action : Option String)
    (start_date end_date : Option Int) : List AuditEvent :=
  List.insertionSort newestFirst
    (matching_events lines journey_id action start_date end_date)

/-- The `scope_breakdown[scope] = scope_breakdown.get(scope, 0) + 1` update
of audit.py line 259. -/
def breakdownInsert (m : List (String × Nat)) (scope : String) :
    List (String × Nat) :=
  if m.any (fun p => p.1 = scope) then
    m.map (fun p => if p.1 = scope then (p.1, p.2 + 1) else p)
  else m ++ [(scope, 1)]

/-- The aggregation loop of `get_consent_summary` (audit.py lines 247-259),
threading the active count, expired count and scope breakdown. -/
def summary_loop (now : Int) : List ConsentRecord → Nat → Nat →
    List (String × Nat) → Nat × Nat × List (String × Nat)
  | [], active, expired, breakdown => (active, expired, breakdown)
  | c :: rest, active, expired, breakdown =>
      let active2 := if consent_not_expired now c then active + 1 else active
      let expired2 := if consent_not_expired now c then expired else expired + 1
      let breakdown2 := c.consent_scope.foldl breakdownInsert breakdown
      summary_loop now rest active2 expired2 breakdown2

/-- The summary returned by `get_consent_summary`. -/
structure ConsentSummary where
  total_consents : Nat
  active_consents : Nat
  expired_consents : Nat
  scope_breakdown : List (String × Nat)

/-- Source `get_consent_summary` (audit.py lines 221-274) over a parsed ledger. -/
def get_consent_summary (ledger : List ConsentRecord) (now : Int) :
    ConsentSummary :=
  let agg := summary_loop now ledger 0 0 []
  { total_consents := ledger.length, active_consents := agg.1,
    expired_consents := agg.2.1, scope_breakdown := agg.2.2 }

/-- First-match lookup in the scope-breakdown dict. -/
def lookupNat : List (String × Nat) → String → Option Nat
  | [], _ => none
  | (k, v) :: rest, key => if k = key then some v else lookupNat rest key

/-- Source `scope_breakdown.get(scope, 0)`: the count recorded for a scope. -/
def breakdownCount (m : List (String × Nat)) (scope : String) : Nat :=
  (lookupNat m scope).getD 0

/-- The state of the intake artifact of one journey namespace, as
`cleanup_expired_artifacts` (storage.py lines 45-74) reads it: the file can
be missing, unparsable (`json.JSONDecodeError`/`ValueError`), parsable but
without a `created_at` field, or carry a creation time. -/
inductive IntakeFile where
  | missing : IntakeFile
  | unparsable : IntakeFile
  | noCreatedAt : IntakeFile
  | withCreatedAt : Int → IntakeFile

/-- One journey namespace under `_artifacts/vault`. -/
structure JourneyDir where
  id : String
  intake : IntakeFile

/-- The expiry test of storage.py lines 65-68: only a parsable intake
artifact with a `created_at` strictly older than `now - ttl_days` makes the
namespace expired; every other state is skipped. -/
def journey_expired (now ttl_days : Int) (j : JourneyDir) : Bool :=
  match j.intake with
  | IntakeFile.withCreatedAt t => decide (t < now - ttl_days * 86400)
  | _ => false

/-- Source `cleanup_expired_artifacts` (storage.py lines 45-74): remove every
expired journey namespace (`shutil.rmtree`), leave the rest untouched. The
result is the list of surviving namespaces. -/
def cleanup_expired_artifacts (vault : List JourneyDir) (now ttl_days : Int) :
    List JourneyDir :=
  vault.filter (fun j => !journey_expired now ttl_days j)

/-- The envelope written by `save_artifact` (storage.py lines 16-31):
`{type, created_at, data}`. -/
structure StoredArtifact where
  type : String
  created_at : String
  data : Value

/-- Source `save_artifact` (storage.py lines 16-31): wrap the data in the envelope
and write it at the path, silently overwriting an existing artifact. The
store is a path-keyed map. -/
def save_artifact (store : List (String × StoredArtifact)) (path : String)
    (data : Value) (artifact_type : String) (now : Int) :
    List (String × StoredArtifact) :=
  dictInsert store path
    { type := artifact_type, created_at := toString now, data := data }

/-- The whole observable state the core touches: the journey store of the
caller (the `journey_store` dict of main.py), the artifact store, and the
audit log. -/
structure SystemState where
  journey_store : List (String × Journey)
  store : List (String × StoredArtifact)
  audit_log : List AuditEvent

/-- Source `JourneyOrchestrator._get_default_schema` (orchestrator.py lines
311-397). The repository ships no `app/forms/*.yml` files, so
`_load_form_schema` always falls through to these built-in defaults; an
unknown step id raises `ValueError`, embedded as `none`. -/
def load_form_schema (step_id : String) : Option FormSchema :=
  if step_id = "birth_reg" then some
    { id := "birth_registry_nsw", title := "Birth Registration (NSW)",
      description := "Register the birth of your baby with NSW Registry of Births, Deaths and Marriages",
      fields := [
        { id := "parent1_full_name", label := "Parent 1 Full Name",
          required := true, source := "parent1.full_name" },
        { id := "parent1_dob", label := "Parent 1 Date of Birth",
          required := true, source := "parent1.dob" },
        { id := "baby_name", label := "Baby's Name",
          required := false, source := "baby.name" },
        { id := "baby_dob", label := "Baby's Date of Birth",
          required := true, source := "baby.dob" },
        { id := "place_of_birth", label := "Place of Birth",
          required := false, source := "baby.place_of_birth" }],
      review_text := "Please review the birth registration details above. All required fields have been completed based on your intake information.",
      receipt_expected := true }
  else if step_id = "medicare_enrolment" then some
    { id := "medicare_newborn", title := "Medicare Newborn Enrolment",
      description := "Enrol your newborn baby for Medicare coverage",
      fields := [
        { id := "parent1_full_name", label := "Parent 1 Full Name",
          required := true, source := "parent1.full_name" },
        { id := "baby_name", label := "Baby's Name",
          required := false, source := "baby.name" },
        { id := "baby_dob", label := "Baby's Date of Birth",
          required := true, source := "baby.dob" }],
      review_text := "Please review the Medicare enrolment details above. All required fields have been completed based on your intake information.",
      receipt_expected := true }
  else if step_id = "unemployment_centrelink" then some
    { id := "unemployment_centrelink", title := "Centrelink JobSeeker Payment",
      description := "Apply for unemployment benefits through Centrelink",
      fields := [
        { id := "applicant_full_name", label := "Full Name",
          required := true, source := "applicant.full_name" },
        { id := "applicant_dob", label := "Date of Birth",
          required := true, source := "applicant.dob" },
        { id := "last_employer", label := "Last Employer Name",
          required := false, source := "employment.last_employer" },
        { id := "last_work_date", label := "Last Day of Work",
          required := false, source := "employment.last_work_date" }],
      review_text := "Please review your JobSeeker Payment application details above. All required fields have been completed based on your intake information.",
      receipt_expected := true }
  else if step_id = "job_service_provider" then some
    { id := "job_service_provider", title := "Job Service Provider Registration",
      description := "Register with a job service provider for employment assistance",
      fields := [
        { id := "applicant_full_name", label := "Full Name",
          required := true, source := "applicant.full_name" },
        { id := "applicant_dob", label := "Date of Birth",
          required := true, source := "applicant.dob" },
        { id := "skills_assessment", label := "Skills Assessment Required",
          required := false, source := "employment.skills_assessment" }],
      review_text := "Please review your Job Service Provider registration details above. All required fields have been completed based on your intake information.",
      receipt_expected := true }
  else if step_id = "emergency_disaster_payment" then some
    { id := "emergency_disaster_payment", title := "Emergency Disaster Payment",
      description := "Apply for emergency financial assistance after a disaster",
      fields := [
        { id := "applicant_full_name", label := "Full Name",
          required := true, source := "applicant.full_name" },
        { id := "applicant_dob", label := "Date of Birth",
          required := true, source := "applicant.dob" },
        { id := "disaster_type", label := "Type of Disaster",
          required := false, source := "disaster.type" },
        { id := "disaster_date", label := "Date of Disaster",
          required := false, source := "disaster.date" }],
      review_text := "Please review your Emergency Disaster Payment application details above. All required fields have been completed based on your intake information.",
      receipt_expected := true }
  else if step_id = "emergency_housing_assistance" then some
    { id := "emergency_housing_assistance", title := "Emergency Housing Assistance",
      description := "Apply for emergency housing support after a disaster",
      fields := [
        { id := "applicant_full_name", label := "Full Name",
          required := true, source := "applicant.full_name" },
        { id := "applicant_dob", label := "Date of Birth",
          required := true, source := "applicant.dob" },
        { id := "disaster_type", label := "Type of Disaster",
          required := false, source := "disaster.type" },
        { id := "housing_status", label := "Current Housing Status",
          required := false, source := "housing.status" }],
      review_text := "Please review your Emergency Housing Assistance application details above. All required fields have been completed based on your intake information.",
      receipt_expected := true }
  else none

/-- The field-mapping loop of `prefill_form` (orchestrator.py lines
157-161): resolve every declared field against the intake and keep only the
ones whose value is not `None`. -/
def prefill_data (schema : FormSchema) (intake : Value) :
    List (String × Value) :=
  schema.fields.foldl (fun acc f =>
    let v := get_value_from_path intake f.source
    if v.isNone then acc else dictInsert acc f.id v) []

/-- The review payload of `prefill_form` (orchestrator.py lines 164-169). -/
structure PrefillReview where
  form_id : String
  step_id : String
  fields : List (String × Value)
  review_text : String

/-- models.py `PrefillResponse`. -/
structure PrefillResponse where
  form_id : String
  data : List (String × Value)
  review : PrefillReview
  review_text : String

/-- Source `JourneyOrchestrator.prefill_form` (orchestrator.py lines 151-196):
load the schema, map the intake onto the form fields, persist a prefill
artifact, return the response. Only the artifact store changes; an unknown
step id propagates as an error. -/
def prefill_form (st : SystemState) (journey_id step_id : String)
    (intake : Value) (now : Int) :
    Except String (PrefillResponse × SystemState) :=
  match load_form_schema step_id with
  | none => Except.error ("Unknown step_id: " ++ step_id)
  | some schema =>
      let form_data := prefill_data schema intake
      let path := "vault/" ++ journey_id ++ "/prefill/" ++ step_id ++
        "_prefill.json"
      let payload := Value.vobj [("journey_id", Value.vstr journey_id),
        ("step_id", Value.vstr step_id), ("form_data", Value.vobj form_data),
        ("created_at", Value.vstr (toString now))]
      Except.ok
        ({ form_id := schema.id, data := form_data,
           review := { form_id := schema.id, step_id := step_id,
                       fields := form_data,
                       review_text := schema.review_text },
           review_text := schema.review_text },
         { st with store := save_artifact st.store path payload "prefill" now })

/-- models.py `SubmissionResponse`. -/
structure SubmissionResponse where
  reference : String
  form_id : String
  submitted_at : Int

/-- Source `JourneyOrchestrator.submit_form` (orchestrator.py lines 198-245):
generate the reference, persist a submission artifact, emit the
`form_submitted` audit event, return the response. The journey store is
never touched. -/
def submit_form (digest : String → String) (st : SystemState)
    (journey_id step_id : String) (form_data : List (String × Value))
    (now : Int) : SubmissionResponse × SystemState :=
  let reference := generate_reference digest step_id journey_id (toString now)
  let path := "vault/" ++ journey_id ++ "/submissions/" ++ step_id ++
    "_submission.json"
  let payload := Value.vobj [("journey_id", Value.vstr journey_id),
    ("step_id", Value.vstr step_id), ("form_data", Value.vobj form_data),
    ("reference", Value.vstr reference),
    ("submitted_at", Value.vstr (toString now)),
    ("status", Value.vstr "submitted")]
  let store2 := save_artifact st.store path payload "submission" now
  let logged := log_event digest st.audit_log now "user" "form_submitted"
    ("Form " ++ step_id ++ " submitted for journey " ++ journey_id) none
    [("journey_id", journey_id), ("step_id", step_id),
     ("reference", reference)]
  ({ reference := reference, form_id := step_id, submitted_at := now },
   { st with store := store2, audit_log := logged.1 })

/-- Source `_get_birth_journey_steps` (orchestrator.py lines 77-104). -/
def get_birth_journey_steps (jurisdiction : String) : List JourneyStep :=
  if jurisdiction = "NSW" then
    [{ id := "birth_reg", title := "Birth Registration (NSW)",
       status := "pending", artifacts := [] },
     { id := "medicare_enrolment", title := "Medicare Newborn Enrolment",
       status := "pending", artifacts := [] }]
  else
    [{ id := "birth_reg", title := "Birth Registration",
       status := "pending", artifacts := [] },
     { id := "medicare_enrolment", title := "Medicare Newborn Enrolment",
       status := "pending", artifacts := [] }]

/-- Source `_get_unemployment_journey_steps` (orchestrator.py lines 106-119). -/
def get_unemployment_journey_steps (_jurisdiction : String) :
    List JourneyStep :=
  [{ id := "unemployment_centrelink", title := "Centrelink JobSeeker Payment",
     status := "pending", artifacts := [] },
   { id := "job_service_provider",
     title := "Job Service Provider Registration",
     status := "pending", artifacts := [] }]

/-- Source `_get_disaster_journey_steps` (orchestrator.py lines 121-134). -/
def get_disaster_journey_steps (_jurisdiction : String) : List JourneyStep :=
  [{ id := "emergency_disaster_payment", title := "Emergency Disaster Payment",
     status := "pending", artifacts := [] },
   { id := "emergency_housing_assistance",
     title := "Emergency Housing Assistance",
     status := "pending", artifacts := [] }]

/-- Source `_get_carer_journey_steps` (orchestrator.py lines 136-149). -/
def get_carer_journey_steps (_jurisdiction : String) : List JourneyStep :=
  [{ id := "carer_payment", title := "Carer Payment Application",
     status := "pending", artifacts := [] },
   { id := "carer_allowance", title := "Carer Allowance Application",
     status := "pending", artifacts := [] }]

/-- Source `JourneyOrchestrator.plan_journey` (orchestrator.py lines 24-61):
derive the journey id, classify the life event, select the per-life-event
steps, persist the intake artifact, emit `journey_created`, and return the
assembled journey. -/
def plan_journey (digest : String → String) (st : SystemState)
    (intake : Intake) (jurisdiction : String) (now : Int) :
    Journey × SystemState :=
  let journey_id := generate_journey_id digest (toString now) intake
  let life_event := determine_life_event intake
  let steps :=
    if life_event = "baby_just_born" then get_birth_journey_steps jurisdiction
    else if life_event = "job_loss" then
      get_unemployment_journey_steps jurisdiction
    else if life_event = "disaster_recovery" then
      get_disaster_journey_steps jurisdiction
    else if life_event = "carer_support" then
      get_carer_journey_steps jurisdiction
    else get_birth_journey_steps jurisdiction
  let journey : Journey :=
    { id := journey_id, life_event := life_event,
      jurisdiction := jurisdiction, steps := steps, created_at := now }
  let intake_path := "_artifacts/vault/" ++ journey_id ++
    "/intake/intake.json"
  let store2 := save_artifact st.store intake_path (intake.toValue) "intake"
    now
  let logged := log_event digest st.audit_log now "system" "journey_created"
    ("New " ++ life_event ++ " journey initiated") none
    [("journey_id", journey_id), ("jurisdiction", jurisdiction),
     ("life_event", life_event)]
  (journey, { st with store := store2, audit_log := logged.1 })

/-- The step-status update loop of the `/submit` endpoint (main.py lines
202-207): set the first step with a matching id to `completed` and stop. -/
def mark_step_completed : List JourneyStep → String → List JourneyStep
  | [], _ => []
  | s :: rest, step_id =>
      if s.id = step_id then { s with status := "completed" } :: rest
      else s :: mark_step_completed rest step_id

/-- The `/submit/{journey_id}/{step}` endpoint of main.py (lines 184-212):
look up the journey, delegate to `JourneyOrchestrator.submit_form`, and
then — in the caller, after the orchestrator returns — mark the matching
step `completed`. -/
def submit_endpoint (digest : String → String) (st : SystemState)
    (journey_id step_id : String) (form_data : List (String × Value))
    (now : Int) : Except String (SubmissionResponse × SystemState) :=
  match st.journey_store.lookup journey_id with
  | none => Except.error "Journey not found"
  | some _ =>
      let result := submit_form digest st journey_id step_id form_data now
      let updated := result.2.journey_store.map (fun p =>
        if p.1 = journey_id then
          (p.1, { p.2 with steps := mark_step_completed p.2.steps step_id })
        else p)
      Except.ok (result.1, { result.2 with journey_store := updated })

/-- Extract the payload of a successful call (used only to state concrete
witness instances of the theorems below). -/
def exceptOk {ε α : Type} (fallback : α) : Except ε α → α
  | Except.ok x => x
  | Except.error _ => fallback

/-- A stand-in for `hashlib.sha256(...).hexdigest()` in concrete witness
computations (every theorem below is proved for an arbitrary digest). -/
def idDigest : String → String := fun s => s

/-- Parent 1 of the concrete birth scenario of spec §8. -/
def demoParent1 : Person :=
  { full_name := "Jane Doe", dob := "1990-01-01", email := none,
    phone := none, address := none }

/-- The baby of the concrete birth scenario of spec §8 (name unset). -/
def demoBaby : Baby :=
  { name := none, sex := none, dob := "2025-08-28",
    place_of_birth := some "Westmead Hospital", parents := [] }

/-- The address of the concrete birth scenario of spec §8. -/
def demoAddress : Address :=
  { line1 := "1 Example St", suburb := "Parramatta", state := "NSW",
    postcode := "2150" }

/-- The concrete birth intake of spec §8. -/
def demoIntake : Intake :=
  { parent1 := some demoParent1, parent2 := none, baby := some demoBaby,
    applicant := none, employment := none, banking := none, disaster := none,
    housing := none, preferred_language := "en", accessibility := [],
    address := some demoAddress }

/-- A planned birth journey used as concrete caller state. -/
def demoJourney : Journey :=
  { id := "j1", life_event := "baby_just_born", jurisdiction := "NSW",
    steps := get_birth_journey_steps "NSW", created_at := 0 }

/-- A concrete system state holding one journey. -/
def demoState : SystemState :=
  { journey_store := [("j1", demoJourney)], store := [], audit_log := [] }

/-- Fallback payload for `exceptOk` on prefill results. -/
def fallbackPrefill : PrefillResponse × SystemState :=
  ({ form_id := "", data := [],
     review := { form_id := "", step_id := "", fields := [],
                 review_text := "" },
     review_text := "" }, demoState)

/-- Fallback payload for `exceptOk` on submission results. -/
def fallbackSubmission : SubmissionResponse × SystemState :=
  ({ reference := "", form_id := "", submitted_at := 0 }, demoState)

/-- Fallback schema for witness statements. -/
def dummySchema : FormSchema :=
  { id := "", title := "", description := "", fields := [],
    review_text := "", receipt_expected := true }

theorem getFromPathAux_eq_resolve_spec (segs : List String) (obj : Value) :
    getFromPathAux obj segs = (resolve_spec obj segs).getD Value.vnone := by
  induction segs generalizing obj with
  | nil => cases obj <;> rfl
  | cons key rest ih =>
      cases obj with
      | vobj fields =>
          simp only [getFromPathAux, resolve_spec]
          cases lookupKey fields key with
          | none => rfl
          | some v => exact ih v
      | vnone => rfl
      | vstr s => rfl
      | vbool b => rfl
      | vint n => rfl
      | vlist l => rfl

lemma determine_life_event_birth (i : Intake) (hb : i.baby.isSome)
    (hp : i.parent1.isSome) : determine_life_event i = "baby_just_born" := by
  simp [determine_life_event, hb, hp]

lemma generate_journey_id_birth (digest : String → String) (now : String)
    (i : Intake) (b : Baby) (p : Person) (hbe : i.baby = some b)
    (hpe : i.parent1 = some p) :
    generate_journey_id digest now i =
      "journey_" ++ (digest (match i.parent2 with
        | some p2 => (b.dob ++ p.full_name) ++ p2.full_name
        | none => b.dob ++ p.full_name)).take 12 := by
  have hle : determine_life_event i = "baby_just_born" :=
    determine_life_event_birth i (by simp [hbe]) (by simp [hpe])
  simp only [generate_journey_id, hle, hbe, hpe, if_pos rfl]
  cases i.parent2 <;> simp

/-- C1: `plan_journey` classifies the life event by the fixed-priority
decision over which optional groups are populated (baby+parent1 ⇒
baby_just_born; else employment+applicant ⇒ job_loss; else
disaster+applicant ⇒ disaster_recovery; else applicant+carer info ⇒
carer_support; else the default baby_just_born), the first matching rule
winning: the source classifier coincides with the spec decision and
satisfies each priority rule. -/
theorem determine_life_event_priority (i : Intake) :
    determine_life_event i = classify_spec i ∧
    (i.baby.isSome ∧ i.parent1.isSome →
      determine_life_event i = "baby_just_born") ∧
    (¬(i.baby.isSome ∧ i.parent1.isSome) →
      i.employment.isSome ∧ i.applicant.isSome →
      determine_life_event i = "job_loss") ∧
    (¬(i.baby.isSome ∧ i.parent1.isSome) →
      ¬(i.employment.isSome ∧ i.applicant.isSome) →
      i.disaster.isSome ∧ i.applicant.isSome →
      determine_life_event i = "disaster_recovery") ∧
    (¬(i.baby.isSome ∧ i.parent1.isSome) →
      ¬(i.employment.isSome ∧ i.applicant.isSome) →
      ¬(i.disaster.isSome ∧ i.applicant.isSome) →
      i.applicant.isSome ∧ carer_info_populated i →
      determine_life_event i = "carer_support") ∧
    (¬(i.baby.isSome ∧ i.parent1.isSome) →
      ¬(i.employment.isSome ∧ i.applicant.isSome) →
      ¬(i.disaster.isSome ∧ i.applicant.isSome) →
      ¬(i.applicant.isSome ∧ carer_info_populated i) →
      determine_life_event i = "baby_just_born") := by
  refine ⟨rfl, ?_, ?_, ?_, ?_, ?_⟩ <;>
    · intros
      unfold determine_life_event
      split_ifs <;> simp_all

/-- C1 witness: the concrete §8 birth intake is classified
`baby_just_born` by the first rule. -/
theorem determine_life_event_priority_witness :
    determine_life_event demoIntake = "baby_just_born" :=
  (determine_life_event_priority demoIntake).2.1 ⟨rfl, rfl⟩

/-- C2: the journey id `plan_journey` derives for a birth intake is a
deterministic function of the stable fields `baby.dob`,
`parent1.full_name` and (when present) `parent2.full_name`: two calls
whose intakes agree on those fields — in particular two calls with the
same intake — yield the same `journey_id`, independently of the call time
and of all other state. -/
theorem plan_journey_id_deterministic (digest : String → String)
    (st st2 : SystemState) (i i2 : Intake) (jur jur2 : String)
    (now now2 : Int) (hb : i.baby.isSome) (hp : i.parent1.isSome)
    (hb2 : i2.baby.isSome) (hp2 : i2.parent1.isSome)
    (hdob : i.baby.map Baby.dob = i2.baby.map Baby.dob)
    (hname : i.parent1.map Person.full_name = i2.parent1.map Person.full_name)
    (hpar2 : i.parent2.map Person.full_name =
      i2.parent2.map Person.full_name) :
    (plan_journey digest st i jur now).1.id =
      (plan_journey digest st2 i2 jur2 now2).1.id := by
  obtain ⟨b, hbe⟩ := Option.isSome_iff_exists.mp hb
  obtain ⟨p, hpe⟩ := Option.isSome_iff_exists.mp hp
  obtain ⟨b2, hbe2⟩ := Option.isSome_iff_exists.mp hb2
  obtain ⟨p2, hpe2⟩ := Option.isSome_iff_exists.mp hp2
  have hdb : b.dob = b2.dob := by
    rw [hbe, hbe2] at hdob
    simpa using hdob
  have hpn : p.full_name = p2.full_name := by
    rw [hpe, hpe2] at hname
    simpa using hname
  have h1 : (plan_journey digest st i jur now).1.id =
      generate_journey_id digest (toString now) i := rfl
  have h2 : (plan_journey digest st2 i2 jur2 now2).1.id =
      generate_journey_id digest (toString now2) i2 := rfl
  rw [h1, h2, generate_journey_id_birth digest _ i b p hbe hpe,
    generate_journey_id_birth digest _ i2 b2 p2 hbe2 hpe2]
  cases hc : i.parent2 <;> cases hc2 : i2.parent2 <;>
    rw [hc, hc2] at hpar2 <;> simp_all

/-- C2 witness: re-planning the §8 birth intake at two different call
times produces the same journey id. -/
theorem plan_journey_id_deterministic_witness :
    (plan_journey idDigest demoState demoIntake "NSW" 0).1.id =
      (plan_journey idDigest demoState demoIntake "NSW" 12345).1.id :=
  plan_journey_id_deterministic idDigest demoState demoState demoIntake
    demoIntake "NSW" "NSW" 0 12345 rfl rfl rfl rfl rfl rfl rfl

/-- C6: the path resolver is total — it splits the path on `.`, traverses
segment by segment, and agrees everywhere with the spec resolver
`resolve_spec`, returning Python `None` (not an error) exactly when the
spec says `absent` (a missing segment or a non-traversable leaf) and the
resolved value otherwise. -/
theorem get_value_from_path_total (record : Value) (path : String) :
    get_value_from_path record path =
      (resolve_spec record (path.splitOn ".")).getD Value.vnone :=
  getFromPathAux_eq_resolve_spec (path.splitOn ".") record

/-- C7: the content hash returned by `log_event` is a deterministic
function of the field values of the event alone — it equals the digest of the
sorted-key canonicalization of the six fields (hash excluded), and does
not depend on any prior event in the log (no chaining). -/
theorem log_event_hash_deterministic (digest : String → String)
    (log1 log2 : List AuditEvent) (ts : Int) (actor action why : String)
    (cid : Option String) (md : List (String × String)) :
    (log_event digest log1 ts actor action why cid md).2 =
      (log_event digest log2 ts actor action why cid md).2 ∧
    (log_event digest log1 ts actor action why cid md).2 =
      digest (canonical_event ts actor action why cid md) :=
  ⟨rfl, rfl⟩

lemma verify_consent_iff (ledger : List ConsentRecord) (now : Int)
    (cid scope : String) :
    verify_consent ledger now cid scope = true ↔
      ∃ c, c ∈ ledger ∧ c.consent_id = cid ∧ scope ∈ c.consent_scope ∧
        now < c.granted_at + c.ttl_days * 86400 := by
  simp [verify_consent, List.any_eq_true, consent_not_expired,
    and_assoc]

/-- C4: `verify_consent(consent_id, required_scope)` is true iff some
ledger record with that id lists the scope and has not expired (`now`
strictly before `granted_at + ttl_days`); in particular it is true at the
very time `log_consent` granted the scope, and false once every matching
record has `now > granted_at + ttl_days`. -/
theorem verify_consent_correct (ledger : List ConsentRecord) (now : Int)
    (cid scope : String) :
    (verify_consent ledger now cid scope = true ↔
      ∃ c, c ∈ ledger ∧ c.consent_id = cid ∧ scope ∈ c.consent_scope ∧
        now < c.granted_at + c.ttl_days * 86400) ∧
    (∀ (digest : String → String) (log : List AuditEvent)
        (jid : String) (scopes : List String) (uid : String)
        (sig : Option String), scope ∈ scopes →
      verify_consent (log_consent digest ledger log jid scopes uid sig now).2.1
        now (log_consent digest ledger log jid scopes uid sig now).1 scope =
        true) ∧
    ((∀ c, c ∈ ledger → c.consent_id = cid →
        now > c.granted_at + c.ttl_days * 86400) →
      verify_consent ledger now cid scope = false) := by
  refine ⟨verify_consent_iff ledger now cid scope, ?_, ?_⟩
  · intro digest log jid scopes uid sig hmem
    refine (verify_consent_iff _ _ _ _).mpr ⟨_, List.mem_append_right _
      (List.mem_singleton_self _), rfl, hmem, ?_⟩
    simp only [log_consent]
    omega
  · intro hall
    cases hbool : verify_consent ledger now cid scope with
    | false => rfl
    | true =>
        obtain ⟨c, hc, hid, _, hlt⟩ := (verify_consent_iff _ _ _ _).mp hbool
        have := hall c hc hid
        omega

/-- C4 witness: a consent granted at time 0 for `birth_registration`
verifies true for that scope at time 0. -/
theorem verify_consent_correct_witness :
    verify_consent
      (log_consent idDigest [] [] "j1" ["birth_registration"] "u" none 0).2.1 0
      (log_consent idDigest [] [] "j1" ["birth_registration"] "u" none 0).1
      "birth_registration" = true :=
  (verify_consent_correct [] 0 "x" "birth_registration").2.1 idDigest []
    "j1" ["birth_registration"] "u" none (by simp)

lemma journey_expired_false_iff (now ttl : Int) (j : JourneyDir) :
    journey_expired now ttl j = false ↔
      ∀ t, j.intake = IntakeFile.withCreatedAt t → ¬ t < now - ttl * 86400 := by
  cases hj : j.intake <;> simp [journey_expired, hj]

/-- C5: `cleanup_expired_artifacts(ttl_days=30)` removes a journey
namespace iff its intake artifact carries a `created_at` strictly older
than `now - 30` days; a namespace exactly 30 days old survives, and a
namespace whose intake artifact is missing or unparsable is always kept. -/
theorem cleanup_expired_artifacts_correct (vault : List JourneyDir)
    (now : Int) (j : JourneyDir) :
    (j ∈ cleanup_expired_artifacts vault now 30 ↔
      j ∈ vault ∧
        ∀ t, j.intake = IntakeFile.withCreatedAt t →
          ¬ t < now - 30 * 86400) ∧
    (j.intake = IntakeFile.missing →
      (j ∈ cleanup_expired_artifacts vault now 30 ↔ j ∈ vault)) ∧
    (j.intake = IntakeFile.unparsable →
      (j ∈ cleanup_expired_artifacts vault now 30 ↔ j ∈ vault)) ∧
    (j.intake = IntakeFile.withCreatedAt (now - 30 * 86400) →
      (j ∈ cleanup_expired_artifacts vault now 30 ↔ j ∈ vault)) := by
  have hmem : j ∈ cleanup_expired_artifacts vault now 30 ↔
      j ∈ vault ∧ journey_expired now 30 j = false := by
    simp [cleanup_expired_artifacts, List.mem_filter]
  refine ⟨?_, ?_, ?_, ?_⟩
  · rw [hmem, journey_expired_false_iff]
  · intro hj
    rw [hmem]
    simp [journey_expired, hj]
  · intro hj
    rw [hmem]
    simp [journey_expired, hj]
  · intro hj
    rw [hmem]
    simp [journey_expired, hj]

/-- C5 witness: at `now` = day 100, a journey created on day 0 is removed,
one created on day 70 (exactly 30 days old) and one with a missing intake
artifact survive. -/
theorem cleanup_expired_artifacts_correct_witness :
    (JourneyDir.mk "boundary" (IntakeFile.withCreatedAt (70 * 86400)) ∈
      cleanup_expired_artifacts
        [JourneyDir.mk "old" (IntakeFile.withCreatedAt 0),
         JourneyDir.mk "boundary" (IntakeFile.withCreatedAt (70 * 86400)),
         JourneyDir.mk "gone" IntakeFile.missing] (100 * 86400) 30 ↔
      JourneyDir.mk "boundary" (IntakeFile.withCreatedAt (70 * 86400)) ∈
        [JourneyDir.mk "old" (IntakeFile.withCreatedAt 0),
         JourneyDir.mk "boundary" (IntakeFile.withCreatedAt (70 * 86400)),
         JourneyDir.mk "gone" IntakeFile.missing]) :=
  (cleanup_expired_artifacts_correct
    [JourneyDir.mk "old" (IntakeFile.withCreatedAt 0),
     JourneyDir.mk "boundary" (IntakeFile.withCreatedAt (70 * 86400)),
     JourneyDir.mk "gone" IntakeFile.missing] (100 * 86400)
    (JourneyDir.mk "boundary" (IntakeFile.withCreatedAt (70 * 86400)))).2.2.2
    (by norm_num)

/-- C8: `get_audit_trail` returns the matching events ordered newest first
(descending timestamp), as a permutation of the parse-and-filter pass, and
a corrupt log line anywhere in the file is skipped without affecting the
result. -/
theorem get_audit_trail_correct (lines : List LogLine)
    (journey_id action : Option String) (start_date end_date : Option Int) :
    (get_audit_trail lines journey_id action start_date end_date).Sorted
      newestFirst ∧
    (get_audit_trail lines journey_id action start_date end_date).Perm
      (matching_events lines journey_id action start_date end_date) ∧
    (∀ pre post s,
      get_audit_trail (pre ++ LogLine.corrupt s :: post) journey_id action
        start_date end_date =
      get_audit_trail (pre ++ post) journey_id action start_date end_date) := by
  refine ⟨List.sorted_insertionSort newestFirst _,
    List.perm_insertionSort newestFirst _, ?_⟩
  intro pre post s
  unfold get_audit_trail
  congr 1
  simp [matching_events]

/-- C9: neither `JourneyOrchestrator.prefill_form` nor
`JourneyOrchestrator.submit_form` mutates the journey store — no step
status (nor any other journey field) changes; after `submit_form` returns,
the transition of the matching step to `completed` is performed by the
caller (the `/submit` endpoint), not by the orchestrator. -/
theorem orchestrator_does_not_mutate_steps (digest : String → String)
    (st : SystemState) (journey_id step_id : String) (intake : Value)
    (form_data : List (String × Value)) (now : Int) :
    (∀ resp st2,
      prefill_form st journey_id step_id intake now = Except.ok (resp, st2) →
        st2.journey_store = st.journey_store) ∧
    ((submit_form digest st journey_id step_id form_data now).2.journey_store =
      st.journey_store) ∧
    (∀ resp st2,
      submit_endpoint digest st journey_id step_id form_data now =
          Except.ok (resp, st2) →
        st2.journey_store = st.journey_store.map (fun p =>
          if p.1 = journey_id then
            (p.1, { p.2 with
                    steps := mark_step_completed p.2.steps step_id })
          else p)) := by
  refine ⟨?_, rfl, ?_⟩
  · intro resp st2 h
    cases hs : load_form_schema step_id with
    | none => rw [prefill_form, hs] at h; cases h
    | some schema =>
        rw [prefill_form, hs] at h
        cases h
        rfl
  · intro resp st2 h
    cases hl : st.journey_store.lookup journey_id with
    | none => rw [submit_endpoint, hl] at h; cases h
    | some jv =>
        simp only [submit_endpoint, hl, Except.ok.injEq, Prod.mk.injEq] at h
        obtain ⟨-, rfl⟩ := h
        rfl

/-- C9 witness: on the concrete one-journey state, prefilling changes no
step, and the endpoint (not the orchestrator) marks `birth_reg`
completed. -/
theorem orchestrator_does_not_mutate_steps_witness :
    ((exceptOk fallbackPrefill
        (prefill_form demoState "j1" "birth_reg" demoIntake.toValue
          0)).2.journey_store = demoState.journey_store) ∧
    ((exceptOk fallbackSubmission
        (submit_endpoint idDigest demoState "j1" "birth_reg" []
          0)).2.journey_store = demoState.journey_store.map (fun p =>
            if p.1 = "j1" then
              (p.1, { p.2 with
                      steps := mark_step_completed p.2.steps "birth_reg" })
            else p)) :=
  ⟨(orchestrator_does_not_mutate_steps idDigest demoState "j1" "birth_reg"
      demoIntake.toValue [] 0).1 _ _ rfl,
   (orchestrator_does_not_mutate_steps idDigest demoState "j1" "birth_reg"
      demoIntake.toValue [] 0).2.2 _ _ rfl⟩

lemma mem_keys_dictInsert {α : Type} (m : List (String × α)) (k : String)
    (v : α) (a : String) :
    a ∈ (dictInsert m k v).map Prod.fst ↔ a ∈ m.map Prod.fst ∨ a = k := by
  unfold dictInsert
  by_cases h : m.any (fun p => p.1 = k)
  · have hk : k ∈ m.map Prod.fst := by
      obtain ⟨p, hp, hpk⟩ := List.any_eq_true.mp h
      exact List.mem_map.mpr ⟨p, hp, of_decide_eq_true hpk⟩
    have hkeys : (m.map (fun p => if p.1 = k then (k, v) else p)).map
        Prod.fst = m.map Prod.fst := by
      rw [List.map_map]
      refine List.map_congr_left ?_
      intro p _
      by_cases hpk : p.1 = k
      · simp [hpk]
      · simp [hpk]
    rw [if_pos h, hkeys]
    constructor
    · exact Or.inl
    · rintro (ha | rfl)
      · exact ha
      · exact hk
  · rw [if_neg h]
    simp [List.mem_append]

lemma prefill_foldl_keys (intake : Value) (fields : List FormField)
    (acc : List (String × Value)) (a : String) :
    a ∈ (fields.foldl (fun acc f =>
        let v := get_value_from_path intake f.source
        if v.isNone then acc else dictInsert acc f.id v) acc).map Prod.fst ↔
      a ∈ acc.map Prod.fst ∨
        ∃ f, f ∈ fields ∧ f.id = a ∧
          (get_value_from_path intake f.source).isNone = false := by
  induction fields generalizing acc with
  | nil => simp
  | cons f rest ih =>
      rw [List.foldl_cons]
      by_cases hv : (get_value_from_path intake f.source).isNone
      · simp only [hv, if_pos]
        rw [ih]
        constructor
        · rintro (ha | ⟨g, hg, hga, hgv⟩)
          · exact Or.inl ha
          · exact Or.inr ⟨g, List.mem_cons_of_mem f hg, hga, hgv⟩
        · rintro (ha | ⟨g, hg, hga, hgv⟩)
          · exact Or.inl ha
          · rcases List.mem_cons.mp hg with rfl | hg2
            · rw [hv] at hgv; cases hgv
            · exact Or.inr ⟨g, hg2, hga, hgv⟩
      · simp only [hv, if_neg, Bool.not_eq_true]
        rw [ih, mem_keys_dictInsert]
        constructor
        · rintro ((ha | rfl) | ⟨g, hg, hga, hgv⟩)
          · exact Or.inl ha
          · exact Or.inr ⟨f, List.mem_cons_self f rest, rfl,
              Bool.not_eq_true _ ▸ hv⟩
          · exact Or.inr ⟨g, List.mem_cons_of_mem f hg, hga, hgv⟩
        · rintro (ha | ⟨g, hg, hga, hgv⟩)
          · exact Or.inl (Or.inl ha)
          · rcases List.mem_cons.mp hg with rfl | hg2
            · exact Or.inl (Or.inr hga.symm)
            · exact Or.inr ⟨g, hg2, hga, hgv⟩

/-- C3: the `data` of the response of `prefill_form` contains exactly those
schema field ids whose declared dotted source path resolves against the
intake to a non-`None` value — unresolved fields are silently omitted —
and is therefore always a subset of the declared field ids of the schema. -/
theorem prefill_form_data_exact (st : SystemState)
    (journey_id step_id : String) (intake : Value) (now : Int)
    (schema : FormSchema) (a : String)
    (hs : load_form_schema step_id = some schema) :
    ∀ resp st2,
      prefill_form st journey_id step_id intake now =
          Except.ok (resp, st2) →
        ((a ∈ resp.data.map Prod.fst ↔
            ∃ f, f ∈ schema.fields ∧ f.id = a ∧
              (get_value_from_path intake f.source).isNone = false) ∧
         (a ∈ resp.data.map Prod.fst →
            a ∈ schema.fields.map FormField.id)) := by
  intro resp st2 h
  rw [prefill_form, hs] at h
  cases h
  have hiff : a ∈ (prefill_data schema intake).map Prod.fst ↔
      ∃ f, f ∈ schema.fields ∧ f.id = a ∧
        (get_value_from_path intake f.source).isNone = false := by
    rw [prefill_data, prefill_foldl_keys]
    simp
  refine ⟨hiff, ?_⟩
  intro ha
  obtain ⟨f, hf, hfa, _⟩ := hiff.mp ha
  exact List.mem_map.mpr ⟨f, hf, hfa⟩

/-- C3 witness: for the §8 birth intake and the `birth_reg` schema,
`parent1_full_name` is in the prefill data exactly because its source path
resolves (and it is a declared field id). -/
theorem prefill_form_data_exact_witness :
    (("parent1_full_name" ∈ (exceptOk fallbackPrefill
        (prefill_form demoState "j1" "birth_reg" demoIntake.toValue
          0)).1.data.map Prod.fst ↔
      ∃ f, f ∈ ((load_form_schema "birth_reg").getD dummySchema).fields ∧
        f.id = "parent1_full_name" ∧
        (get_value_from_path demoIntake.toValue f.source).isNone = false) ∧
     ("parent1_full_name" ∈ (exceptOk fallbackPrefill
        (prefill_form demoState "j1" "birth_reg" demoIntake.toValue
          0)).1.data.map Prod.fst →
      "parent1_full_name" ∈
        ((load_form_schema "birth_reg").getD dummySchema).fields.map
          FormField.id)) :=
  prefill_form_data_exact demoState "j1" "birth_reg" demoIntake.toValue 0
    ((load_form_schema "birth_reg").getD dummySchema) "parent1_full_name"
    rfl _ _ rfl

lemma any_key_eq_lookupNat_isSome (m : List (String × Nat)) (s : String) :
    m.any (fun p => p.1 = s) = (lookupNat m s).isSome := by
  induction m with
  | nil => rfl
  | cons p rest ih =>
      obtain ⟨a, b⟩ := p
      by_cases h : a = s <;> simp [lookupNat, h, ih]

lemma lookupNat_append (m l : List (String × Nat)) (k : String) :
    lookupNat (m ++ l) k = (lookupNat m k).or (lookupNat l k) := by
  induction m with
  | nil => simp [lookupNat]
  | cons p rest ih =>
      obtain ⟨a, b⟩ := p
      by_cases h : a = k <;> simp [lookupNat, h, ih]

lemma breakdownCount_map_inc (m : List (String × Nat)) (s s2 : String) :
    breakdownCount (m.map (fun p => if p.1 = s then (p.1, p.2 + 1) else p))
        s2 =
      breakdownCount m s2 +
        (if s2 = s ∧ (lookupNat m s2).isSome then 1 else 0) := by
  induction m with
  | nil => simp [breakdownCount, lookupNat]
  | cons p rest ih =>
      obtain ⟨k, v⟩ := p
      by_cases hs : k = s
      · subst hs
        rw [List.map_cons]
        have hhead : (if (k, v).1 = k then ((k, v).1, (k, v).2 + 1)
            else (k, v)) = (k, v + 1) := by simp
        rw [hhead]
        by_cases hk : k = s2
        · subst hk
          simp [breakdownCount, lookupNat]
        · simp only [breakdownCount, lookupNat, if_neg hk]
          simpa [breakdownCount, lookupNat] using ih
      · rw [List.map_cons]
        have hhead : (if (k, v).1 = s then ((k, v).1, (k, v).2 + 1)
            else (k, v)) = (k, v) := by simp [hs]
        rw [hhead]
        by_cases hk : k = s2
        · subst hk
          have hks : ¬ k = s := hs
          simp [breakdownCount, lookupNat, hks]
        · simp only [breakdownCount, lookupNat, if_neg hk]
          simpa [breakdownCount, lookupNat] using ih

lemma breakdownCount_insert (m : List (String × Nat)) (s s2 : String) :
    breakdownCount (breakdownInsert m s) s2 =
      breakdownCount m s2 + (if s2 = s then 1 else 0) := by
  unfold breakdownInsert
  by_cases h : m.any (fun p => p.1 = s)
  · rw [if_pos h, breakdownCount_map_inc]
    congr 1
    by_cases hss : s2 = s
    · subst hss
      have hsome : (lookupNat m s2).isSome := by
        rw [← any_key_eq_lookupNat_isSome]
        exact h
      simp [hsome]
    · simp [hss]
  · rw [if_neg h]
    have hfalse : m.any (fun p => p.1 = s) = false := Bool.eq_false_iff.mpr h
    have hnone : lookupNat m s = none := by
      have h2 : (lookupNat m s).isSome = false := by
        rw [← any_key_eq_lookupNat_isSome]
        exact hfalse
      exact Option.not_isSome_iff_eq_none.mp (by simp [h2])
    by_cases hss : s2 = s
    · subst hss
      rw [breakdownCount, lookupNat_append, hnone]
      simp [breakdownCount, hnone, lookupNat]
    · rw [breakdownCount, lookupNat_append]
      have hne : ¬ s = s2 := fun hh => hss hh.symm
      simp [breakdownCount, lookupNat, hne, hss]

lemma breakdownCount_foldl (scopes : List String) (b : List (String × Nat))
    (s2 : String) :
    breakdownCount (scopes.foldl breakdownInsert b) s2 =
      breakdownCount b s2 + scopes.count s2 := by
  induction scopes generalizing b with
  | nil => simp
  | cons s rest ih =>
      rw [List.foldl_cons, ih, breakdownCount_insert, List.count_cons]
      by_cases hss : s2 = s
      · subst hss
        simp
        omega
      · have hne : ¬ s = s2 := fun hh => hss hh.symm
        simp [hss, hne]

lemma summary_loop_spec (now : Int) (l : List ConsentRecord) (a e : Nat)
    (b : List (String × Nat)) :
    summary_loop now l a e b =
      (a + l.countP (consent_not_expired now),
       e + l.countP (fun c => !consent_not_expired now c),
       ((l.map ConsentRecord.consent_scope).flatten).foldl breakdownInsert
         b) := by
  induction l generalizing a e b with
  | nil => simp [summary_loop]
  | cons c rest ih =>
      simp only [summary_loop]
      rw [ih]
      by_cases hc : consent_not_expired now c <;>
        simp [hc, List.countP_cons, List.foldl_append, Prod.ext_iff] <;>
        omega

lemma length_countP_bool (p : ConsentRecord → Bool) (l : List ConsentRecord) :
    l.length = l.countP p + l.countP (fun c => !p c) := by
  induction l with
  | nil => rfl
  | cons c rest ih =>
      by_cases hc : p c <;> simp [List.countP_cons, hc, ih] <;> omega

/-- C10: `get_consent_summary` partitions the ledger exactly —
`total_consents = active_consents + expired_consents`, a consent counts as
active precisely when `now` is strictly before `granted_at + ttl_days` and
as expired otherwise, and `scope_breakdown` counts every scope occurrence
of every consent regardless of expiry. -/
theorem get_consent_summary_partition (ledger : List ConsentRecord)
    (now : Int) :
    ((get_consent_summary ledger now).total_consents =
      (get_consent_summary ledger now).active_consents +
        (get_consent_summary ledger now).expired_consents) ∧
    ((get_consent_summary ledger now).active_consents =
      ledger.countP (fun c =>
        decide (now < c.granted_at + c.ttl_days * 86400))) ∧
    ((get_consent_summary ledger now).expired_consents =
      ledger.countP (fun c =>
        !decide (now < c.granted_at + c.ttl_days * 86400))) ∧
    (∀ scope,
      breakdownCount (get_consent_summary ledger now).scope_breakdown scope =
        ((ledger.map ConsentRecord.consent_scope).flatten).count scope) := by
  have hs := summary_loop_spec now ledger 0 0 []
  have ha : (get_consent_summary ledger now).active_consents =
      ledger.countP (consent_not_expired now) := by
    simp [get_consent_summary, hs]
  have he : (get_consent_summary ledger now).expired_consents =
      ledger.countP (fun c => !consent_not_expired now c) := by
    simp [get_consent_summary, hs]
  have ht : (get_consent_summary ledger now).total_consents =
      ledger.length := rfl
  refine ⟨?_, ha, he, ?_⟩
  · rw [ht, ha, he]
    exact length_countP_bool (consent_not_expired now) ledger
  · intro scope
    have hb : (get_consent_summary ledger now).scope_breakdown =
        ((ledger.map ConsentRecord.consent_scope).flatten).foldl
          breakdownInsert [] := by
      simp [get_consent_summary, hs]
    rw [hb, breakdownCount_foldl]
    simp [breakdownCount, lookupNat]

end CommunityAgent
